import Mathlib

/-!
Verification of the text-to-image rendering adapter in src/render.py.

The development shallowly embeds the module: pure logic (viewport
resolution, keyword-argument construction, path allocation) becomes Lean
functions, and the stateful Playwright-driving code becomes explicit
state passing over a record of handles plus a trace of the external
calls it issues.  External collaborators (the Playwright engine, the
Jinja template engine, the unique-path generator in util.py) are modelled
by oracles or, where the spec fixes their contract, by definitions whose
doc comment says so.
-/

set_option maxRecDepth 100000

/-- Character list, the carrier for Python strings in this embedding. -/
abbrev Str := List Char

/-- Convert a Lean string literal to the Str carrier. -/
def str (s : String) : Str := s.toList

/-- Embedding of the FloatRect TypedDict (clip rectangle).  The source
declares float fields; no arithmetic is ever performed on them in this
module, so the exact numeric carrier is irrelevant and we use Rat. -/
structure FloatRect where
  x : Rat
  y : Rat
  width : Rat
  height : Rat
deriving DecidableEq

/-- Output image type, the Literal["jpeg", "png"] values. -/
inductive ImgType
  | jpeg
  | png
deriving DecidableEq

/-- String form of an ImgType, as Pydantic serializes the literal. -/
def imgTypeStr : ImgType → String
  | .jpeg => "jpeg"
  | .png => "png"

/-- The Literal["allow", "disabled"] animation policy. -/
inductive AnimationsOpt
  | allow
  | disabled
deriving DecidableEq

/-- String form of an AnimationsOpt value. -/
def animationsStr : AnimationsOpt → String
  | .allow => "allow"
  | .disabled => "disabled"

/-- The Literal["hide", "initial"] caret policy. -/
inductive CaretOpt
  | hide
  | initial
deriving DecidableEq

/-- String form of a CaretOpt value. -/
def caretStr : CaretOpt → String
  | .hide => "hide"
  | .initial => "initial"

/-- The Literal["css", "device"] scale policy. -/
inductive ScaleOpt
  | css
  | device
deriving DecidableEq

/-- String form of a ScaleOpt value. -/
def scaleStr : ScaleOpt → String
  | .css => "css"
  | .device => "device"

/-- Embedding of the ScreenshotOptions Pydantic model.  Field order and
defaults follow the source: every field defaults to None except
full_page, which defaults to True.  Python ints are embedded as Int and
floats as Rat (no float arithmetic occurs in the module). -/
structure ScreenshotOptions where
  timeout : Option Rat := none
  type : Option ImgType := none
  quality : Option Int := none
  omit_background : Option Bool := none
  full_page : Option Bool := some true
  clip : Option FloatRect := none
  animations : Option AnimationsOpt := none
  caret : Option CaretOpt := none
  scale : Option ScaleOpt := none
  viewport_width : Option Int := none
deriving DecidableEq

/-- Values that can appear in the dict produced by model_dump. -/
inductive PyVal
  | float (q : Rat)
  | str (s : String)
  | int (n : Int)
  | bool (b : Bool)
  | rect (r : FloatRect)
deriving DecidableEq

/-- Embedding of screenshot_options.model_dump(exclude_none=True): the
association list of (field name, value) for every field that is not
None, in field declaration order. -/
def model_dump (o : ScreenshotOptions) : List (String × PyVal) :=
  (o.timeout.map fun v => ("timeout", PyVal.float v)).toList ++
  (o.type.map fun v => ("type", PyVal.str (imgTypeStr v))).toList ++
  (o.quality.map fun v => ("quality", PyVal.int v)).toList ++
  (o.omit_background.map fun v => ("omit_background", PyVal.bool v)).toList ++
  (o.full_page.map fun v => ("full_page", PyVal.bool v)).toList ++
  (o.clip.map fun v => ("clip", PyVal.rect v)).toList ++
  (o.animations.map fun v => ("animations", PyVal.str (animationsStr v))).toList ++
  (o.caret.map fun v => ("caret", PyVal.str (caretStr v))).toList ++
  (o.scale.map fun v => ("scale", PyVal.str (scaleStr v))).toList ++
  (o.viewport_width.map fun v => ("viewport_width", PyVal.int v)).toList

/-- Embedding of the two lines building the kwargs for page.screenshot:
screenshot_kwargs = model_dump(exclude_none=True) followed by
screenshot_kwargs.pop("viewport_width", None).  Since model_dump emits
each key at most once, removing the key equals filtering it out. -/
def screenshot_kwargs (o : ScreenshotOptions) : List (String × PyVal) :=
  (model_dump o).filter fun kv => kv.1 != "viewport_width"

theorem screenshot_kwargs_key_absent (o : ScreenshotOptions) :
    "viewport_width" ∉ (screenshot_kwargs o).map Prod.fst := by
  intro hmem
  rcases List.mem_map.mp hmem with ⟨kv, hkv, hfst⟩
  have hfilter := (List.mem_filter.mp hkv).2
  rw [hfst] at hfilter
  simp at hfilter

/-!
A small backtracking regular-expression engine, faithful to the CPython
re module semantics needed by the one pattern in the source: leftmost
search position wins, greedy quantifiers prefer the longest repetition
and backtrack from the right.  The engine is fuel-bounded (the pattern
contains starred single-character classes only, so a fuel of input
length plus pattern size always suffices); running out of fuel reports
failure, which never happens at the fuel reSearch supplies.
-/

/-- Regular-expression abstract syntax: empty, single character class,
concatenation, greedy star, and the single capturing group. -/
inductive RE
  | eps
  | chr (p : Char → Bool)
  | cat (a b : RE)
  | star (a : RE)
  | group (a : RE)

/-- Greedy plus, as the source pattern uses it: one occurrence then a
greedy star. -/
def rePlus (a : RE) : RE := .cat a (.star a)

/-- Concatenation of a list of pieces, mirroring how the source writes
the pattern as a juxtaposition of segments. -/
def catAll (l : List RE) : RE := l.foldr .cat .eps

/-- Backtracking matcher in continuation-passing style.  The
continuation receives the remaining input and the capture recorded so
far; a some result is the capture of the first (leftmost-greedy) match,
a none result means no match within the given fuel. -/
def reM : Nat → RE → Str → Option Str → (Str → Option Str → Option (Option Str)) →
    Option (Option Str)
  | 0, _, _, _, _ => none
  | _ + 1, .eps, s, cap, k => k s cap
  | _ + 1, .chr _, [], _, _ => none
  | _ + 1, .chr p, c :: s, cap, k => if p c then k s cap else none
  | fuel + 1, .cat a b, s, cap, k =>
      reM fuel a s cap fun s1 c1 => reM fuel b s1 c1 k
  | fuel + 1, .star a, s, cap, k =>
      (reM fuel a s cap fun s1 c1 => reM fuel (.star a) s1 c1 k).orElse
        fun _ => k s cap
  | fuel + 1, .group a, s, cap, k =>
      reM fuel a s cap fun s1 _ => k s1 (some (s.take (s.length - s1.length)))

/-- Try to match at the current position, else advance one character:
the scanning loop of re.search. -/
def reSearchFrom (fuel : Nat) (r : RE) : Str → Option (Option Str)
  | [] => reM fuel r [] none fun _ cap => some cap
  | c :: t =>
      (reM fuel r (c :: t) none fun _ cap => some cap).orElse
        fun _ => reSearchFrom fuel r t

/-- Embedding of re.search for the fixed pattern shape used here.  The
fuel bound covers the whole input plus the pattern size at any single
start position. -/
def reSearch (r : RE) (s : Str) : Option (Option Str) :=
  reSearchFrom (s.length + 64) r s

/-- Case-insensitive single literal character, as re.IGNORECASE treats
the ASCII literals of the pattern. -/
def lit1 (a : Char) : RE := .chr fun c => c.toLower == a

/-- Case-insensitive literal word: the pattern pieces such as <meta,
name=, viewport, content= and width. -/
def litCI (s : String) : RE := catAll (s.toList.map lit1)

/-- Character class for the backslash-s of the pattern (whitespace).
The source operates on ASCII HTML; the ASCII whitespace set matches the
re module behaviour there. -/
def reSpace : RE := .chr fun c =>
  c == ' ' || c == '\t' || c == '\n' || c.toNat == 11 || c.toNat == 12 || c == '\r'

/-- Character class for the backslash-d of the pattern (ASCII digits). -/
def reDigit : RE := .chr fun c => c.isDigit

/-- Character class for the negated bracket excluding the closing angle
bracket. -/
def notGt : RE := .chr fun c => c != '>'

/-- Character class for a single or double quote (code points 34, 39). -/
def quoteC : RE := .chr fun c => c.toNat == 34 || c.toNat == 39

/-- Character class for the negated bracket excluding both quote kinds. -/
def notQuote : RE := .chr fun c => !(c.toNat == 34 || c.toNat == 39)

/-- The meta-viewport pattern of _resolve_viewport_width, segment by
segment in source order. -/
def viewportRE : RE := catAll [
  litCI "<meta",
  rePlus reSpace,
  .star notGt,
  litCI "name=",
  quoteC,
  litCI "viewport",
  quoteC,
  .star notGt,
  litCI "content=",
  quoteC,
  .star notQuote,
  litCI "width",
  .star reSpace,
  lit1 '=',
  .star reSpace,
  .group (rePlus reDigit),
  .star notQuote,
  quoteC,
  .star notGt,
  lit1 '>']

/-- Embedding of int applied to the matched digit group: base-ten value
of an ASCII digit string. -/
def digitsToNat (l : Str) : Nat :=
  l.foldl (fun acc c => 10 * acc + (c.toNat - 48)) 0

/-- Search the head snippet for the meta-viewport pattern and parse the
captured digits.  The group sits on the mandatory path of the pattern,
so a successful match always carries a capture. -/
def metaSearch (s : Str) : Option Nat :=
  match reSearch viewportRE s with
  | some (some ds) => some (digitsToNat ds)
  | _ => none

/-- Errors that opening and reading the HTML file can raise: OSError
(missing file and other I/O failures) and UnicodeDecodeError (bad
encoding).  The remaining members of the except clause in the source
(re.error, ValueError) cannot arise from the fixed pattern and the
digit-only group. -/
inductive ReadError
  | ioError
  | decodeError
deriving DecidableEq

/-- Embedding of Text2ImgRender._resolve_viewport_width.  The file
system is passed in as the outcome of opening and reading the HTML
file; the source reads at most 4096 characters (text-mode read counts
code points), which the take models.  An explicitly supplied
viewport_width short-circuits before any file access; every read error
is swallowed and leaves the inferred width at None. -/
def resolve_viewport_width (readResult : Except ReadError Str)
    (screenshot_options : ScreenshotOptions) : Option Int :=
  match screenshot_options.viewport_width with
  | some w => some w
  | none =>
    match readResult with
    | .error _ => none
    | .ok content => (metaSearch (content.take 4096)).map Int.ofNat

example :
    metaSearch (str "<html><head><meta name=\"viewport\" content=\"width=480, initial-scale=1\"></head>")
      = some 480 := by decide

example : metaSearch (str "<head><title>t</title></head>") = none := by decide

example : metaSearch (str "<meta name=\"viewport\" content=\"width=abc\">") = none := by decide

example :
    metaSearch (str "<meta name=\"viewport\" content=\"width=480, min-width=200\">")
      = some 200 := by decide

/-!
Session and page lifecycle.  Playwright handles are embedded as natural
identifiers; an environment record is the oracle deciding what each
external call returns (fresh identifiers, probe availability and
answer, success of the page operations).  Every external call the
module issues is recorded, in order, in a trace of events, and the
fallible page operations can be made to raise through the environment.
-/

/-- The three mutable handle fields of Text2ImgRender. -/
structure RenderState where
  playwright : Option Nat
  browser : Option Nat
  context : Option Nat
deriving DecidableEq

/-- The state right after Text2ImgRender.__init__: all handles None. -/
def initState : RenderState := ⟨none, none, none⟩

/-- Oracle for the external Playwright engine during one call:
identifiers handed out by start, launch, new_context and new_page,
whether the context exposes a callable is_closed and what it answers,
and whether each fallible page operation succeeds. -/
structure PlaywrightEnv where
  startId : Nat
  launchId : Nat
  hasIsClosed : Bool
  isClosedAns : Bool
  newContextId : Nat
  newPageId : Nat
  setViewportOk : Bool
  gotoOk : Bool
  screenshotOk : Bool
  closeOk : Bool
deriving DecidableEq

/-- One recorded external call. -/
inductive PwEvent
  | startPlaywright (id : Nat)
  | launchBrowser (id : Nat)
  | newContext (id : Nat) (device_scale_factor : Rat)
  | newPage (id : Nat)
  | setViewportSize (page : Nat) (width : Int) (height : Nat)
  | goto (page : Nat) (url : Str)
  | screenshot (page : Nat) (path : Str) (kwargs : List (String × PyVal))
  | closePage (page : Nat)
deriving DecidableEq

/-- Errors a page operation can raise inside html2pic. -/
inductive PwError
  | viewportError
  | gotoError
  | screenshotError
  | closeError
deriving DecidableEq

/-- Embedding of Text2ImgRender._ensure_context: start the engine if
absent, launch the browser if absent, probe the context with a safe
getattr (an unavailable probe leaves context_closed at False), and
create a new context with device_scale_factor 1.8 when the context is
absent or reported closed. -/
def ensure_context (env : PlaywrightEnv) (st : RenderState) :
    RenderState × List PwEvent :=
  let pwPair : Nat × List PwEvent :=
    match st.playwright with
    | some p => (p, [])
    | none => (env.startId, [.startPlaywright env.startId])
  let brPair : Nat × List PwEvent :=
    match st.browser with
    | some b => (b, [])
    | none => (env.launchId, [.launchBrowser env.launchId])
  let contextClosed : Bool :=
    match st.context with
    | none => false
    | some _ => env.hasIsClosed && env.isClosedAns
  if st.context.isNone || contextClosed then
    (⟨some pwPair.1, some brPair.1, some env.newContextId⟩,
      pwPair.2 ++ brPair.2 ++ [.newContext env.newContextId ((9 : Rat) / 5)])
  else
    (⟨some pwPair.1, some brPair.1, st.context⟩, pwPair.2 ++ brPair.2)

/-- Modelled from the spec: generate_data_path lives in src/util.py,
which is not part of the sources given; per the spec it allocates a
uniquely named output file whose extension matches the requested suffix,
under the given namespace, and returns the path together with an
absolute form.  The unique token uid stands for the external
collision-free name; its dot-freeness is stated as a hypothesis where a
theorem needs it. -/
def generate_data_path (suffix : String) (ns : String) (uid : Str) : Str × Str :=
  let p := ns.toList ++ ['/'] ++ uid ++ ['.'] ++ suffix.toList
  (p, str "/abs/" ++ p)

/-- Extension of a path: the characters after the last dot. -/
def extOf (p : Str) : Str :=
  (p.reverse.takeWhile fun c => c != '.').reverse

/-- Embedding of the try body of html2pic: goto the file URL, then
screenshot with the filtered kwargs; each attempted call is recorded,
and the first failure aborts the body. -/
def navShoot (env : PlaywrightEnv) (page : Nat) (html_file_path result_path : Str)
    (screenshot_options : ScreenshotOptions) : List PwEvent × Except PwError Unit :=
  let url := str "file://" ++ html_file_path
  if env.gotoOk then
    let kw := screenshot_kwargs screenshot_options
    if env.screenshotOk then
      ([.goto page url, .screenshot page result_path kw], .ok ())
    else
      ([.goto page url, .screenshot page result_path kw], .error .screenshotError)
  else
    ([.goto page url], .error .gotoError)

/-- Embedding of the try/finally of html2pic: run the body, then close
the page unconditionally; an error of the close call replaces the body
outcome, exactly as a raising finally block does in Python. -/
def navShootClose (env : PlaywrightEnv) (page : Nat)
    (html_file_path result_path : Str)
    (screenshot_options : ScreenshotOptions) : List PwEvent × Except PwError Unit :=
  let body := navShoot env page html_file_path result_path screenshot_options
  (body.1 ++ [.closePage page], if env.closeOk then body.2 else .error .closeError)

/-- Replace the unit payload of a successful body by the result path
returned by html2pic. -/
def exceptPath (r : Except PwError Unit) (p : Str) : Except PwError Str :=
  match r with
  | .ok _ => .ok p
  | .error e => .error e

/-- Embedding of the suffix line of html2pic: the declared image type
when present, else png (a non-empty literal string is always truthy, so
the Python conditional expression reduces to this match). -/
def suffixOf (screenshot_options : ScreenshotOptions) : String :=
  match screenshot_options.type with
  | some t => imgTypeStr t
  | none => "png"

/-- The page-scoped part of html2pic, after _ensure_context: allocate
the output path, open a page, resolve the viewport width, size the
viewport when a width resolved (this call sits before the try/finally in
the source), then navigate, screenshot and close under the try/finally. -/
def pageRun (env : PlaywrightEnv) (uid : Str) (html_file_path : Str)
    (readResult : Except ReadError Str)
    (screenshot_options : ScreenshotOptions) : List PwEvent × Except PwError Str :=
  let alloc := generate_data_path (suffixOf screenshot_options) "rendered" uid
  let result_path := alloc.1
  let page := env.newPageId
  match resolve_viewport_width readResult screenshot_options with
  | some w =>
    if env.setViewportOk then
      let body := navShootClose env page html_file_path result_path screenshot_options
      ([.newPage page, .setViewportSize page w 720] ++ body.1,
        exceptPath body.2 result_path)
    else
      ([.newPage page, .setViewportSize page w 720], .error .viewportError)
  | none =>
    let body := navShootClose env page html_file_path result_path screenshot_options
    ([.newPage page] ++ body.1, exceptPath body.2 result_path)

/-- Embedding of Text2ImgRender.html2pic: ensure the session, then run
the page-scoped steps.  The outcome is the state of the handle fields
after the call, the ordered trace of external calls, and either the
output path or the first propagated error. -/
def html2pic (env : PlaywrightEnv) (uid : Str) (st : RenderState)
    (html_file_path : Str) (readResult : Except ReadError Str)
    (screenshot_options : ScreenshotOptions) :
    RenderState × List PwEvent × Except PwError Str :=
  let ensured := ensure_context env st
  let run := pageRun env uid html_file_path readResult screenshot_options
  (ensured.1, ensured.2 ++ run.1, run.2)

/-- Embedding of Text2ImgRender.from_html: allocate a unique html path
under the rendered namespace and write the string there (the write is
returned as data: path and content), returning the (path, absolute
path) pair the method returns. -/
def from_html (uid : Str) (html : Str) : (Str × Str) × (Str × Str) :=
  let alloc := generate_data_path "html" "rendered" uid
  ((alloc.1, html), (alloc.1, alloc.2))

/-- Embedding of Text2ImgRender.from_jinja_template as written in the
source: build the sandboxed environment, render the template against
the data, delegate to from_html.  The sandboxed Jinja engine is an
external collaborator, passed in as the function it denotes. -/
def from_jinja_template (sandboxedRender : Str → List (String × PyVal) → Str)
    (uid : Str) (template : Str) (data : List (String × PyVal)) :
    (Str × Str) × (Str × Str) :=
  let html := sandboxedRender template data
  from_html uid html

/-- The spec wording of render_template: produce an HTML string by
sandboxed evaluation of the template against the data mapping, then
delegate to render_html on that string. -/
def render_template_spec (sandboxedRender : Str → List (String × PyVal) → Str)
    (uid : Str) (template : Str) (data : List (String × PyVal)) :
    (Str × Str) × (Str × Str) :=
  from_html uid (sandboxedRender template data)

/-!
Byte-level view of file contents, needed to compare the character-count
read the source performs with the byte-count bound the spec states.
-/

/-- UTF-8 encoding of one scalar value, by the standard length cases. -/
def utf8Bytes (c : Char) : List Nat :=
  let n := c.toNat
  if n < 128 then [n]
  else if n < 2048 then [192 + n / 64, 128 + n % 64]
  else if n < 65536 then [224 + n / 4096, 128 + (n / 64) % 64, 128 + n % 64]
  else [240 + n / 262144, 128 + (n / 4096) % 64, 128 + (n / 64) % 64, 128 + n % 64]

/-- UTF-8 encoding of a character sequence. -/
def utf8Encode (s : Str) : List Nat := (s.map utf8Bytes).flatten

/-- The first n bytes of the UTF-8 encoding of a character sequence. -/
def utf8Take (n : Nat) (s : Str) : List Nat := (utf8Encode s).take n

theorem utf8Encode_append (a b : Str) :
    utf8Encode (a ++ b) = utf8Encode a ++ utf8Encode b := by
  simp [utf8Encode]

theorem utf8Encode_replicate_length (k : Nat) (c : Char) :
    (utf8Encode (List.replicate k c)).length = k * (utf8Bytes c).length := by
  induction k with
  | zero => simp [utf8Encode]
  | succ n ih =>
    rw [List.replicate_succ]
    show (utf8Encode (c :: List.replicate n c)).length = _
    have : utf8Encode (c :: List.replicate n c)
        = utf8Bytes c ++ utf8Encode (List.replicate n c) := by
      simp [utf8Encode]
    rw [this, List.length_append, ih, Nat.succ_mul, Nat.add_comm]

theorem takeWhile_no_dot (l r : Str) (h : ∀ c ∈ l, (c != '.') = true) :
    List.takeWhile (fun c => c != '.') (l ++ '.' :: r) = l := by
  induction l with
  | nil => simp [List.takeWhile]
  | cons a t ih =>
    have ha : (a != '.') = true := h a (List.mem_cons_self a t)
    have ht : ∀ c ∈ t, (c != '.') = true := fun c hc => h c (List.mem_cons_of_mem a hc)
    simp [List.takeWhile, ha, ih ht]

/-!
Helper lemmas about the traces of ensure_context and pageRun, shared by
several claims below.
-/

/-- Session-initialization events: engine start, browser launch and
context creation; page-scoped events are everything else. -/
def isSessionInitEvent : PwEvent → Bool
  | .startPlaywright _ => true
  | .launchBrowser _ => true
  | .newContext _ _ => true
  | _ => false

theorem ensure_context_events_sub (env : PlaywrightEnv) (st : RenderState) :
    ∀ e ∈ (ensure_context env st).2, isSessionInitEvent e = true := by
  intro e he
  rcases st with ⟨pw, br, cx⟩
  rcases pw with _ | p <;> rcases br with _ | b <;> rcases cx with _ | c <;>
    rcases hb : env.hasIsClosed && env.isClosedAns with _ | _ <;>
    simp [ensure_context, hb] at he <;>
    rcases he with rfl | rfl | rfl <;> rfl

theorem pageRun_events_pageScoped (env : PlaywrightEnv) (uid : Str)
    (hp : Str) (rr : Except ReadError Str) (o : ScreenshotOptions) :
    ∀ e ∈ (pageRun env uid hp rr o).1, isSessionInitEvent e = false := by
  intro e he
  rcases hres : resolve_viewport_width rr o with _ | w <;>
    rcases hsv : env.setViewportOk with _ | _ <;>
    rcases hg : env.gotoOk with _ | _ <;>
    rcases hsc : env.screenshotOk with _ | _ <;>
    simp [pageRun, hres, hsv, hg, hsc, navShootClose, navShoot] at he <;>
    rcases he with rfl | rfl | rfl | rfl | rfl <;> rfl

theorem pageRun_screenshot_kwargs (env : PlaywrightEnv) (uid : Str)
    (hp : Str) (rr : Except ReadError Str) (o : ScreenshotOptions)
    (p : Nat) (pa : Str) (kw : List (String × PyVal))
    (h : PwEvent.screenshot p pa kw ∈ (pageRun env uid hp rr o).1) :
    kw = screenshot_kwargs o := by
  rcases hres : resolve_viewport_width rr o with _ | w <;>
    rcases hsv : env.setViewportOk with _ | _ <;>
    rcases hg : env.gotoOk with _ | _ <;>
    rcases hsc : env.screenshotOk with _ | _ <;>
    simp [pageRun, hres, hsv, hg, hsc, navShootClose, navShoot] at h <;>
    tauto

/-!
Claim theorems.
-/

/-- A small HTML document whose head carries the meta-viewport tag of
the spec example. -/
def html_with_meta : Str :=
  str "<html><head><meta name=\"viewport\" content=\"width=480, initial-scale=1\"></head><body>hi</body></html>"

/-- A small HTML document with no meta-viewport tag at all. -/
def html_no_meta : Str :=
  str "<html><head><title>t</title></head><body>hi</body></html>"

/-- A document whose meta-viewport content carries a non-numeric width. -/
def html_bad_meta : Str :=
  str "<html><head><meta name=\"viewport\" content=\"width=abc\"></head></html>"

/-- A document whose meta-viewport content carries two width tokens. -/
def html_two_widths : Str :=
  str "<html><head><meta name=\"viewport\" content=\"width=480, min-width=200\"></head><body></body></html>"

/-- A document whose meta-viewport content carries three width tokens. -/
def html_three_widths : Str :=
  str "<meta name=\"viewport\" content=\"width=600, max-width=320, width=240\">"

/-- C3: with viewport_width unset, a head containing the tag with
content width 480 resolves to 480, and a document with no meta-viewport
tag resolves to None. -/
theorem resolve_viewport_width_meta_examples :
    resolve_viewport_width (.ok html_with_meta) {} = some 480 ∧
    resolve_viewport_width (.ok html_no_meta) {} = none := by
  exact ⟨by decide, by decide⟩

/-- C4: with viewport_width unset, every read failure (missing file,
bad encoding) is absorbed and resolves to None, and malformed meta
content such as width=abc resolves to None as well; the function is
total, so neither path raises past its boundary. -/
theorem resolve_viewport_width_failures_suppressed
    (o : ScreenshotOptions) (e : ReadError) (h : o.viewport_width = none) :
    resolve_viewport_width (.error e) o = none ∧
    resolve_viewport_width (.ok html_bad_meta) o = none := by
  rcases o with ⟨t, ty, q, ob, fp, cl, an, ca, sc, vw⟩
  cases h
  exact ⟨rfl, rfl⟩

/-- Witness for C4 at a concrete option record and error. -/
theorem resolve_viewport_width_failures_suppressed_witness :
    ({} : ScreenshotOptions).viewport_width = none ∧
    (resolve_viewport_width (.error .ioError) {} = none ∧
     resolve_viewport_width (.ok html_bad_meta) {} = none) :=
  ⟨rfl, resolve_viewport_width_failures_suppressed {} .ioError rfl⟩

/-- C10: when the meta content holds several width tokens, the greedy
class before the width literal backtracks from the right, so the digits
of the last width occurrence win: 200 for the spec example, and 240
when a standalone width token comes last. -/
theorem resolve_viewport_width_last_width_token :
    resolve_viewport_width (.ok html_two_widths) {} = some 200 ∧
    resolve_viewport_width (.ok html_three_widths) {} = some 240 := by
  exact ⟨by decide, by decide⟩

/-- C9: the template pipeline equals sandboxed template evaluation
followed by the raw-HTML pipeline, for every template, data mapping and
sandboxed engine denotation. -/
theorem from_jinja_template_refines_spec
    (sandboxedRender : Str → List (String × PyVal) → Str)
    (uid template : Str) (data : List (String × PyVal)) :
    from_jinja_template sandboxedRender uid template data
      = render_template_spec sandboxedRender uid template data := rfl

/-- A concrete environment where every external operation succeeds and
the probe, though available, reports the context open. -/
def envAllOk : PlaywrightEnv := ⟨1, 2, true, false, 3, 4, true, true, true, true⟩

/-- C1: an explicitly supplied viewport_width W resolves to exactly W
for every file-read outcome (so any meta-viewport tag is ignored), and
html2pic issues a set_viewport_size call with width W and height 720. -/
theorem html2pic_explicit_viewport_width
    (env : PlaywrightEnv) (uid hp : Str) (st : RenderState)
    (rr : Except ReadError Str) (o : ScreenshotOptions) (W : Int)
    (_hW : 0 < W) (hset : o.viewport_width = some W) :
    resolve_viewport_width rr o = some W ∧
    PwEvent.setViewportSize env.newPageId W 720
      ∈ (html2pic env uid st hp rr o).2.1 := by
  have hres : resolve_viewport_width rr o = some W := by
    unfold resolve_viewport_width
    rw [hset]
  refine ⟨hres, ?_⟩
  rcases hsv : env.setViewportOk with _ | _ <;>
    simp [html2pic, pageRun, hres, hsv, navShootClose, navShoot]

/-- Witness for C1 at width 500 over an arbitrary small file. -/
theorem html2pic_explicit_viewport_width_witness :
    (0 : Int) < 500 ∧
    ({ viewport_width := some 500 } : ScreenshotOptions).viewport_width = some 500 ∧
    (resolve_viewport_width (.ok html_with_meta) { viewport_width := some 500 } = some 500 ∧
     PwEvent.setViewportSize 4 500 720
       ∈ (html2pic envAllOk (str "u1") initState (str "/tmp/a.html")
            (.ok html_with_meta) { viewport_width := some 500 }).2.1) :=
  ⟨by decide, rfl,
    html2pic_explicit_viewport_width envAllOk (str "u1") (str "/tmp/a.html")
      initState (.ok html_with_meta) { viewport_width := some 500 } 500
      (by decide) rfl⟩

/-- C2: whatever the options, every screenshot call recorded in an
html2pic trace carries a keyword-argument list without the key
viewport_width. -/
theorem html2pic_screenshot_kwargs_no_viewport_width
    (env : PlaywrightEnv) (uid hp : Str) (st : RenderState)
    (rr : Except ReadError Str) (o : ScreenshotOptions)
    (p : Nat) (pa : Str) (kw : List (String × PyVal))
    (h : PwEvent.screenshot p pa kw ∈ (html2pic env uid st hp rr o).2.1) :
    "viewport_width" ∉ kw.map Prod.fst := by
  have hsplit : PwEvent.screenshot p pa kw ∈ (ensure_context env st).2 ∨
      PwEvent.screenshot p pa kw ∈ (pageRun env uid hp rr o).1 := by
    simp [html2pic] at h
    exact h
  rcases hsplit with hL | hR
  · have hses := ensure_context_events_sub env st _ hL
    simp [isSessionInitEvent] at hses
  · rw [pageRun_screenshot_kwargs env uid hp rr o p pa kw hR]
    exact screenshot_kwargs_key_absent o

/-- Witness for C2 on a concrete successful capture: the recorded
screenshot call carries only the full_page keyword. -/
theorem html2pic_screenshot_kwargs_no_viewport_width_witness :
    PwEvent.screenshot 4 (str "rendered/u1.png") [("full_page", PyVal.bool true)]
        ∈ (html2pic envAllOk (str "u1") initState (str "/tmp/a.html")
             (.error .ioError) {}).2.1 ∧
    "viewport_width" ∉
      ([("full_page", PyVal.bool true)] : List (String × PyVal)).map Prod.fst :=
  ⟨by decide,
    html2pic_screenshot_kwargs_no_viewport_width envAllOk (str "u1") (str "/tmp/a.html")
      initState (.error .ioError) {} 4 (str "rendered/u1.png")
      [("full_page", PyVal.bool true)] (by decide)⟩

theorem extOf_generate_data_path (suffix ns : String) (uid : Str)
    (hs : ∀ c ∈ suffix.toList, (c != '.') = true) :
    extOf (generate_data_path suffix ns uid).1 = suffix.toList := by
  have hrev : ∀ c ∈ suffix.toList.reverse, (c != '.') = true := by
    intro c hc
    exact hs c (List.mem_reverse.mp hc)
  show extOf (ns.toList ++ ['/'] ++ uid ++ ['.'] ++ suffix.toList) = suffix.toList
  rw [extOf]
  have hshape :
      (ns.toList ++ ['/'] ++ uid ++ ['.'] ++ suffix.toList).reverse
        = suffix.toList.reverse ++ '.' :: (uid.reverse ++ '/' :: ns.toList.reverse) := by
    simp
  rw [hshape, takeWhile_no_dot _ _ hrev, List.reverse_reverse]

theorem suffixOf_no_dot (o : ScreenshotOptions) :
    ∀ c ∈ (suffixOf o).toList, (c != '.') = true := by
  rcases h : o.type with _ | ty
  · have hs : suffixOf o = "png" := by simp [suffixOf, h]
    rw [hs]; decide
  · rcases ty
    · have hs : suffixOf o = "jpeg" := by simp [suffixOf, h, imgTypeStr]
      rw [hs]; decide
    · have hs : suffixOf o = "png" := by simp [suffixOf, h, imgTypeStr]
      rw [hs]; decide

/-- C7: whenever html2pic returns a path, its extension equals the
declared image type, or png when the type is unset. -/
theorem html2pic_result_extension
    (env : PlaywrightEnv) (uid hp : Str) (st : RenderState)
    (rr : Except ReadError Str) (o : ScreenshotOptions) (p : Str)
    (hok : (html2pic env uid st hp rr o).2.2 = .ok p) :
    extOf p = (suffixOf o).toList := by
  have hpath : p = (generate_data_path (suffixOf o) "rendered" uid).1 := by
    rcases hres : resolve_viewport_width rr o with _ | w <;>
      rcases hsv : env.setViewportOk with _ | _ <;>
      rcases hg : env.gotoOk with _ | _ <;>
      rcases hsc : env.screenshotOk with _ | _ <;>
      rcases hc : env.closeOk with _ | _ <;>
      simp [html2pic, pageRun, hres, hsv, hg, hsc, hc,
        navShootClose, navShoot, exceptPath] at hok <;>
      tauto
  rw [hpath]
  exact extOf_generate_data_path _ _ _ (suffixOf_no_dot o)

/-- Witness for C7: a concrete jpeg capture returns a path ending in
the jpeg extension. -/
theorem html2pic_result_extension_witness :
    (html2pic envAllOk (str "u1") initState (str "/tmp/a.html") (.error .ioError)
        { type := some .jpeg }).2.2 = .ok (str "rendered/u1.jpeg") ∧
    extOf (str "rendered/u1.jpeg") = (suffixOf { type := some .jpeg }).toList :=
  ⟨by rfl,
    html2pic_result_extension envAllOk (str "u1") (str "/tmp/a.html") initState
      (.error .ioError) { type := some .jpeg } (str "rendered/u1.jpeg") (by rfl)⟩

theorem pageRun_last (env : PlaywrightEnv) (uid hp : Str)
    (rr : Except ReadError Str) (o : ScreenshotOptions)
    (hsv : env.setViewportOk = true) :
    ∃ pre, (pageRun env uid hp rr o).1
      = pre ++ [PwEvent.closePage env.newPageId] := by
  rcases hres : resolve_viewport_width rr o with _ | w
  · simp [pageRun, hres, hsv, navShootClose]
    exact ⟨PwEvent.newPage env.newPageId ::
      (navShoot env env.newPageId hp
        (generate_data_path (suffixOf o) "rendered" uid).1 o).1, by simp⟩
  · simp [pageRun, hres, hsv, navShootClose]
    exact ⟨PwEvent.newPage env.newPageId :: PwEvent.setViewportSize env.newPageId w 720 ::
      (navShoot env env.newPageId hp
        (generate_data_path (suffixOf o) "rendered" uid).1 o).1, by simp⟩

/-- C5 as amended: provided the viewport-sizing call does not fail, the
page is closed on every exit path (the close is the final page
operation of the trace), and a navigation, screenshot or close failure
is propagated to the caller after the close; the viewport-sizing call
itself, however, runs before the try/finally, so its failure is not in
the guarantee (see the counterexample). -/
theorem html2pic_page_closed_after_try
    (env : PlaywrightEnv) (uid hp : Str) (st : RenderState)
    (rr : Except ReadError Str) (o : ScreenshotOptions)
    (hsv : env.setViewportOk = true) :
    (∃ pre, (html2pic env uid st hp rr o).2.1
        = pre ++ [PwEvent.closePage env.newPageId]) ∧
    (env.closeOk = true → env.gotoOk = false →
       (html2pic env uid st hp rr o).2.2 = .error .gotoError) ∧
    (env.closeOk = true → env.gotoOk = true → env.screenshotOk = false →
       (html2pic env uid st hp rr o).2.2 = .error .screenshotError) ∧
    (env.closeOk = false →
       (html2pic env uid st hp rr o).2.2 = .error .closeError) ∧
    (env.closeOk = true → env.gotoOk = true → env.screenshotOk = true →
       (html2pic env uid st hp rr o).2.2
         = .ok (generate_data_path (suffixOf o) "rendered" uid).1) := by
  refine ⟨?_, ?_, ?_, ?_, ?_⟩
  · rcases pageRun_last env uid hp rr o hsv with ⟨pre, hpre⟩
    exact ⟨(ensure_context env st).2 ++ pre, by simp [html2pic, hpre]⟩
  · intro hc hg
    rcases hres : resolve_viewport_width rr o with _ | w <;>
      simp [html2pic, pageRun, hres, hsv, hc, hg, navShootClose, navShoot, exceptPath]
  · intro hc hg hsc
    rcases hres : resolve_viewport_width rr o with _ | w <;>
      simp [html2pic, pageRun, hres, hsv, hc, hg, hsc, navShootClose, navShoot, exceptPath]
  · intro hc
    rcases hres : resolve_viewport_width rr o with _ | w <;>
      simp [html2pic, pageRun, hres, hsv, hc, navShootClose, navShoot, exceptPath]
  · intro hc hg hsc
    rcases hres : resolve_viewport_width rr o with _ | w <;>
      simp [html2pic, pageRun, hres, hsv, hc, hg, hsc, navShootClose, navShoot, exceptPath]

/-- Witness for C5 (amended form) on a run whose goto fails. -/
theorem html2pic_page_closed_after_try_witness :
    envAllOk.setViewportOk = true ∧
    (∃ pre, (html2pic envAllOk (str "u1") initState (str "/tmp/a.html")
        (.error .ioError) {}).2.1 = pre ++ [PwEvent.closePage 4]) :=
  ⟨rfl, (html2pic_page_closed_after_try envAllOk (str "u1") (str "/tmp/a.html")
      initState (.error .ioError) {} rfl).1⟩

/-- An environment whose set_viewport_size call raises. -/
def envVpFail : PlaywrightEnv := ⟨1, 2, true, false, 3, 4, false, true, true, true⟩

/-- Counterexample to C5 as stated: when the viewport-sizing step
fails (a step after the page is opened), the call returns the error
without ever closing the page it opened, because set_viewport_size sits
before the try/finally in the source. -/
theorem html2pic_viewport_sizing_leak_cex :
    PwEvent.newPage 4
        ∈ (html2pic envVpFail (str "u1") initState (str "/tmp/a.html")
             (.error .ioError) { viewport_width := some 500 }).2.1 ∧
    PwEvent.closePage 4
        ∉ (html2pic envVpFail (str "u1") initState (str "/tmp/a.html")
             (.error .ioError) { viewport_width := some 500 }).2.1 ∧
    (html2pic envVpFail (str "u1") initState (str "/tmp/a.html")
        (.error .ioError) { viewport_width := some 500 }).2.2
      = .error .viewportError :=
  ⟨by decide, by decide, by rfl⟩

/-- C6: starting from a fresh pipeline, the first capture call fills
the three handles; a second call reuses all three handles with no
start, launch or context creation whenever the probe is unavailable or
reports the context open, and when the probe reports it closed the
second call creates exactly a new context (device scale factor 1.8)
while keeping the engine and browser handles, succeeding with no
caller-visible error when the page operations succeed. -/
theorem html2pic_session_lifecycle
    (env1 env2 : PlaywrightEnv) (uid1 uid2 hp1 hp2 : Str)
    (rr1 rr2 : Except ReadError Str) (o1 o2 : ScreenshotOptions)
    (st1 : RenderState)
    (hst : st1 = (html2pic env1 uid1 initState hp1 rr1 o1).1) :
    st1 = ⟨some env1.startId, some env1.launchId, some env1.newContextId⟩ ∧
    ((env2.hasIsClosed = false ∨ env2.isClosedAns = false) →
      (html2pic env2 uid2 st1 hp2 rr2 o2).1 = st1 ∧
      ∀ e ∈ (html2pic env2 uid2 st1 hp2 rr2 o2).2.1, isSessionInitEvent e = false) ∧
    (env2.hasIsClosed = true → env2.isClosedAns = true →
      (html2pic env2 uid2 st1 hp2 rr2 o2).1
        = ⟨some env1.startId, some env1.launchId, some env2.newContextId⟩ ∧
      PwEvent.newContext env2.newContextId ((9 : Rat) / 5)
        ∈ (html2pic env2 uid2 st1 hp2 rr2 o2).2.1 ∧
      (∀ i, PwEvent.startPlaywright i ∉ (html2pic env2 uid2 st1 hp2 rr2 o2).2.1) ∧
      (∀ i, PwEvent.launchBrowser i ∉ (html2pic env2 uid2 st1 hp2 rr2 o2).2.1) ∧
      (env2.setViewportOk = true → env2.gotoOk = true → env2.screenshotOk = true →
        env2.closeOk = true →
        (html2pic env2 uid2 st1 hp2 rr2 o2).2.2
          = .ok (generate_data_path (suffixOf o2) "rendered" uid2).1)) := by
  have hst1 : st1 = ⟨some env1.startId, some env1.launchId, some env1.newContextId⟩ := by
    rw [hst]; rfl
  refine ⟨hst1, ?_, ?_⟩
  · intro hopen
    have hens : ensure_context env2 st1 = (st1, []) := by
      rw [hst1]
      rcases hopen with h | h <;> simp [ensure_context, h]
    constructor
    · simp [html2pic, hens]
    · intro e he
      simp [html2pic, hens] at he
      exact pageRun_events_pageScoped env2 uid2 hp2 rr2 o2 e he
  · intro h1 h2
    have hens : ensure_context env2 st1
        = (⟨some env1.startId, some env1.launchId, some env2.newContextId⟩,
           [PwEvent.newContext env2.newContextId ((9 : Rat) / 5)]) := by
      rw [hst1]; simp [ensure_context, h1, h2]
    refine ⟨by simp [html2pic, hens], by simp [html2pic, hens], ?_, ?_, ?_⟩
    · intro i hi
      simp [html2pic, hens] at hi
      have hpage := pageRun_events_pageScoped env2 uid2 hp2 rr2 o2 _ hi
      simp [isSessionInitEvent] at hpage
    · intro i hi
      simp [html2pic, hens] at hi
      have hpage := pageRun_events_pageScoped env2 uid2 hp2 rr2 o2 _ hi
      simp [isSessionInitEvent] at hpage
    · intro hsv hg hsc hc
      rcases hres : resolve_viewport_width rr2 o2 with _ | w <;>
        simp [html2pic, pageRun, hres, hsv, hg, hsc, hc,
          navShootClose, navShoot, exceptPath]

/-- An environment whose probe reports the context closed and whose
page operations all succeed. -/
def envClosed : PlaywrightEnv := ⟨5, 6, true, true, 7, 8, true, true, true, true⟩

/-- Witness for C6: a concrete first call fills the handles and a
second call against a closed-context probe recreates only the context
and still succeeds. -/
theorem html2pic_session_lifecycle_witness :
    ((⟨some 1, some 2, some 3⟩ : RenderState)
        = (html2pic envAllOk (str "u1") initState (str "/tmp/a.html")
             (.error .ioError) {}).1) ∧
    (html2pic envClosed (str "u2") (⟨some 1, some 2, some 3⟩ : RenderState)
        (str "/tmp/b.html") (.error .ioError) {}).1 = ⟨some 1, some 2, some 7⟩ ∧
    (html2pic envClosed (str "u2") (⟨some 1, some 2, some 3⟩ : RenderState)
        (str "/tmp/b.html") (.error .ioError) {}).2.2 = .ok (str "rendered/u2.png") := by
  have h := html2pic_session_lifecycle envAllOk envClosed (str "u1") (str "u2")
    (str "/tmp/a.html") (str "/tmp/b.html") (.error .ioError) (.error .ioError)
    {} {} ⟨some 1, some 2, some 3⟩ (by rfl)
  refine ⟨by rfl, ?_, ?_⟩
  · exact (h.2.2 rfl rfl).1
  · exact (h.2.2 rfl rfl).2.2.2.2 rfl rfl rfl rfl

/-- C8 as amended: with viewport_width unset the source reads at most
the first 4096 characters of the file (a Python text-mode read counts
code points, not bytes), so the resolution result is a function of that
character prefix alone; content beyond the first 4096 characters never
influences the resolved width. -/
theorem resolve_viewport_width_char_prefix
    (c1 c2 : Str) (o : ScreenshotOptions)
    (h : c1.take 4096 = c2.take 4096) :
    resolve_viewport_width (.ok c1) o = resolve_viewport_width (.ok c2) o := by
  unfold resolve_viewport_width
  cases o.viewport_width <;> simp [h]

/-- Padding of 4096 blanks, filling the whole read window. -/
def spaces4096 : Str := List.replicate 4096 ' '

/-- A file whose only meta-viewport tag lies entirely beyond the first
4096 characters. -/
def fileTailMeta : Str :=
  spaces4096 ++ str "<meta name=\"viewport\" content=\"width=500\">"

theorem fileTailMeta_agrees : fileTailMeta.take 4096 = spaces4096.take 4096 := by
  have hlen : (4096 : Nat) ≤ spaces4096.length := by
    rw [spaces4096, List.length_replicate]
  rw [fileTailMeta, List.take_append_of_le_length hlen]

/-- Witness for C8 at two concrete files agreeing on the prefix: a tag
beyond the 4096-character window does not influence the result. -/
theorem resolve_viewport_width_char_prefix_witness :
    (fileTailMeta.take 4096 = spaces4096.take 4096) ∧
    resolve_viewport_width (.ok fileTailMeta) {}
      = resolve_viewport_width (.ok spaces4096) {} :=
  ⟨fileTailMeta_agrees,
    resolve_viewport_width_char_prefix fileTailMeta spaces4096 {} fileTailMeta_agrees⟩

/-- A four-byte UTF-8 character used as padding. -/
def padChar : Char := Char.ofNat 66376

/-- Padding of 1024 four-byte characters: 4096 bytes, 1024 characters. -/
def pad1024 : Str := List.replicate 1024 padChar

/-- A file whose meta-viewport tag lies entirely beyond the first 4096
bytes yet inside the first 4096 characters. -/
def fileMetaPastBytes : Str :=
  pad1024 ++ str "<meta name=\"viewport\" content=\"width=500\">"

/-- Counterexample to C8 as stated: the two files below agree on their
first 4096 bytes, yet resolution reads 4096 characters, sees the tag
that lies beyond the byte boundary, and returns different results, so
the resolved width is not a function of the first 4096 bytes. -/
theorem resolve_viewport_width_beyond_byte_limit_cex :
    utf8Take 4096 fileMetaPastBytes = utf8Take 4096 pad1024 ∧
    resolve_viewport_width (.ok fileMetaPastBytes) {} = some 500 ∧
    resolve_viewport_width (.ok pad1024) {} = none := by
  have hlen : (utf8Encode pad1024).length = 4096 := by
    have h := utf8Encode_replicate_length 1024 padChar
    have hb : (utf8Bytes padChar).length = 4 := by decide
    rw [pad1024]
    rw [h, hb]
  refine ⟨?_, by decide, by decide⟩
  have hA : utf8Take 4096 fileMetaPastBytes = utf8Encode pad1024 := by
    rw [utf8Take, fileMetaPastBytes, utf8Encode_append, ← hlen, List.take_left]
  have hB : utf8Take 4096 pad1024 = utf8Encode pad1024 := by
    rw [utf8Take, ← hlen, List.take_length]
  rw [hA, hB]
